import Mathlib

/-
Verification of the stream lifecycle core (stream.go) and the H.265 track
ingress path (track/h265.go) of the engine repository.

The Go code is shallowly embedded: machine state becomes a record, the
serialized action loop becomes a pure dispatch function returning the new
state together with the list of emitted state events and promise
operations, and byte buffers become lists of naturals below 256.
-/

namespace Engine

/-! ## Stream state machine (stream.go) -/

/-- The four stream states (stream.go `StreamState` constants). -/
inductive StreamState
  | waitPublish
  | publishing
  | waitClose
  | closed
deriving DecidableEq, Repr

/-- The six stream actions (stream.go `StreamAction` constants). -/
inductive StreamAction
  | publish
  | timeout
  | publishLost
  | close
  | lastLeave
  | firstEnter
deriving DecidableEq, Repr

/-- Transition table, translated from the `StreamFSM` array of maps in
stream.go.  A missing map entry is `none`. -/
def StreamFSM : StreamState → StreamAction → Option StreamState
  | .waitPublish, .publish => some .publishing
  | .waitPublish, .timeout => some .closed
  | .waitPublish, .lastLeave => some .closed
  | .waitPublish, .close => some .closed
  | .publishing, .publishLost => some .waitPublish
  | .publishing, .lastLeave => some .waitClose
  | .publishing, .close => some .closed
  | .waitClose, .publishLost => some .closed
  | .waitClose, .timeout => some .closed
  | .waitClose, .firstEnter => some .publishing
  | .waitClose, .close => some .closed
  | _, _ => none

/-- A state-event history entry: the acting action and the state it was
taken from (stream.go `StateEvent`; the wall-clock time field is not
modelled). -/
structure StateEvent where
  Action : StreamAction
  From : StreamState
deriving DecidableEq, Repr

/-- Publisher handle.  Modelled from the spec: `IPublisher` is an external
interface (spec section 6); only its identity and
`Config.WaitCloseTimeout` are consumed by stream.go. -/
structure Publisher where
  id : Nat
  WaitCloseTimeout : Nat
deriving DecidableEq, Repr

/-- Subscriber handle.  Modelled from the spec: `ISubscriber` is an
external interface (spec section 6); only its identity and
`Config.WaitTimeout` are consumed by the modelled paths. -/
structure Subscriber where
  id : Nat
  WaitTimeout : Nat
deriving DecidableEq, Repr

/-- Per-track liveness flag (`TrackStateOffline` is set on tracks when the
publisher is lost, stream.go line 280). -/
inductive TrackState
  | online
  | offline
deriving DecidableEq, Repr

/-- A track as seen by the stream core: its registry name and its
liveness flag. -/
structure Track where
  name : String
  tstate : TrackState
deriving DecidableEq, Repr

/-- The stream's single timeout timer: either running with a duration (in
nanoseconds, as Go `time.Duration`) or stopped. -/
inductive TimerState
  | running (d : Nat)
  | stopped
deriving DecidableEq, Repr

/-- One millisecond in Go `time.Duration` units (nanoseconds). -/
def msec : Nat := 1000000

/-- `time.Millisecond * 10`, the fallback wait used on entering
WaitPublish with no publisher timeout and no subscriber. -/
def defaultWaitPublish : Nat := 10 * msec

/-- `time.Second * 5`, the heartbeat reset applied when a track is added. -/
def fiveSeconds : Nat := 5000 * msec

/-- The Stream record: the mutable fields of stream.go `Stream` that the
state machine and the action loop touch.  `Subscribers` keeps insertion
order (`Pick` returns its head); `actionChanClosed` models the closed bit
of the `SafeChan` action queue. -/
structure Stream where
  State : StreamState
  SEHistory : List StateEvent
  Publisher : Option Publisher
  Subscribers : List Subscriber
  Tracks : List Track
  timer : TimerState
  PublishTimeout : Nat
  DelayCloseTimeout : Nat
  IdleTimeout : Nat
  actionChanClosed : Bool
deriving DecidableEq, Repr

/-- The typed state events fanned out on a transition (`SEwaitPublish`,
`SEpublish`, `SErepublish`, `SEwaitClose`, `SEclose`). -/
inductive SE
  | waitPublishE
  | publishE
  | republishE
  | waitCloseE
  | closeE
deriving DecidableEq, Repr

/-- One observable state-event emission of `Stream.action`: a send on the
global `EventBus`, a `Publisher.OnEvent` callback, a
`Subscribers.Broadcast`, or the `Subscribers.OnPublisherLost` fan-out. -/
inductive Emission
  | bus (e : SE)
  | toPublisher (e : SE)
  | broadcast (e : SE)
  | onPublisherLost
deriving DecidableEq, Repr

/-- The trailing emissions of every successful transition: the
`EventBus <- stateEvent` send followed, when a publisher is set, by
`Publisher.OnEvent(stateEvent)` (stream.go lines 323-326). -/
def endEms (s : Stream) (e : SE) : List Emission :=
  match s.Publisher with
  | some _ => [Emission.bus e, Emission.toPublisher e]
  | none => [Emission.bus e]

/-- `Stream.action` body, translated from stream.go lines 260-331.  The
single recursive call (`return r.action(ACTION_LASTLEAVE)` inside the
Publishing arm) has depth at most one, since LastLeave from Publishing
lands in WaitClose; the fuel argument makes that recursion structural. -/
def actionFuel : Nat → Stream → StreamAction → Bool × Stream × List Emission
  | 0, s, _ => (false, s, [])
  | n + 1, s, a =>
    match StreamFSM s.State a with
    | none => (false, s, [])
    | some next =>
      let s1 : Stream :=
        { s with State := next, SEHistory := s.SEHistory ++ [⟨a, s.State⟩] }
      match next with
      | .waitPublish =>
        let wt0 : Nat :=
          match s1.Publisher with
          | some p => p.WaitCloseTimeout
          | none => 0
        let s2 : Stream :=
          match s1.Publisher with
          | some _ =>
            { s1 with Tracks := s1.Tracks.map fun t => { t with tstate := .offline } }
          | none => s1
        match s2.Subscribers.head? with
        | some suber =>
          let wt := if wt0 = 0 then suber.WaitTimeout else wt0
          (true, { s2 with timer := .running wt },
            [Emission.onPublisherLost, Emission.broadcast .waitPublishE]
              ++ endEms s2 .waitPublishE)
        | none =>
          let wt := if wt0 = 0 then defaultWaitPublish else wt0
          (true, { s2 with timer := .running wt },
            [Emission.onPublisherLost] ++ endEms s2 .waitPublishE)
      | .publishing =>
        let se := if s1.SEHistory.length > 1 then SE.republishE else SE.publishE
        if 0 < s1.IdleTimeout ∧ s1.Subscribers.length = 0 then
          let r := actionFuel n s1 .lastLeave
          (r.1, r.2.1, Emission.broadcast se :: r.2.2)
        else
          (true, { s1 with timer := .running s1.PublishTimeout },
            Emission.broadcast se :: endEms s1 se)
      | .waitClose =>
        let wt := if 0 < s1.IdleTimeout then s1.IdleTimeout else s1.DelayCloseTimeout
        (true, { s1 with timer := .running wt }, endEms s1 .waitCloseE)
      | .closed =>
        let s2 : Stream := { s1 with actionChanClosed := true, timer := .stopped }
        (true, s2, Emission.broadcast SE.closeE :: endEms s2 .closeE)

/-- stream.go `Stream.action`: apply one action; returns whether the
transition was accepted together with the new stream and the emitted
state events. -/
def Stream.action (s : Stream) (a : StreamAction) : Bool × Stream × List Emission :=
  actionFuel 2 s a

/-- stream.go `Stream.IsClosed` (for a non-nil stream). -/
def Stream.IsClosed (s : Stream) : Bool :=
  s.State == .closed

/-- stream.go `Stream.Receive`: refuse when closed, otherwise hand the
item to the action queue (`SafeChan.Send` fails iff the queue is
closed). -/
def Stream.Receive (s : Stream) : Bool :=
  if s.IsClosed then false else !s.actionChanClosed

/-- The stream created by `findOrCreateStream` for a fresh path: Go zero
values give state WaitPublish, empty history, no publisher; the timer is
seeded with the given wait, and the timeout configuration is copied from
the engine config. -/
def createStream (waitTimeout pt dct idle : Nat) : Stream :=
  { State := .waitPublish
    SEHistory := []
    Publisher := none
    Subscribers := []
    Tracks := []
    timer := .running waitTimeout
    PublishTimeout := pt
    DelayCloseTimeout := dct
    IdleTimeout := idle
    actionChanClosed := false }

/-! ## The serial action loop (stream.go `Stream.run`) -/

/-- Promise rejection reasons used by the run loop. -/
inductive RejErr
  | streamClosed
  | badStreamName
  | badTrackName
deriving DecidableEq, Repr

/-- One settle invocation on a request promise. -/
inductive PromiseOp
  | resolve
  | reject (e : RejErr)
deriving DecidableEq, Repr

/-- The queue items the claims are about (`Stream.run`'s type switch). -/
inductive Item
  | publishReq (p : Publisher)
  | subscribeReq (sub : Subscriber)
  | unsubscribe (sub : Subscriber)
  | trackAdd (t : Track)
  | bareAction (a : StreamAction)
deriving DecidableEq, Repr

/-- One iteration of the action-queue arm of `Stream.run` (stream.go
lines 436-549), translated case by case.  Returns the new stream, the
state events emitted, and the settle invocations performed on the item's
promise.  Non-state-event callbacks (`OnTrack`, publisher notification of
a new subscriber, track-wait bookkeeping) live in the external
Subscribers component and are not recorded here; `Subscribers.Add` is
modelled from the spec (section 4.7) as insertion. -/
def Stream.dispatch (s : Stream) (it : Item) : Stream × List Emission × List PromiseOp :=
  match it with
  | .publishReq p =>
    -- Note: the source rejects on IsClosed but does not return,
    -- so the rest of the handler still runs.
    let ops0 : List PromiseOp := if s.IsClosed then [.reject .streamClosed] else []
    let republish := s.Publisher == some p
    let s1 := if republish then s else { s with Publisher := some p }
    let r := s1.action .publish
    (r.2.1, r.2.2,
      ops0 ++ if r.1 || republish then [PromiseOp.resolve] else [.reject .badStreamName])
  | .subscribeReq sub =>
    let ops0 : List PromiseOp := if s.IsClosed then [.reject .streamClosed] else []
    let s1 := { s with Subscribers := s.Subscribers ++ [sub] }
    if s1.Subscribers.length = 1 ∧ s1.State = .waitClose then
      let r := s1.action .firstEnter
      (r.2.1, r.2.2, ops0)
    else
      (s1, [], ops0)
  | .unsubscribe sub =>
    let s1 := { s with Subscribers := s.Subscribers.filter fun x => !(x == sub) }
    if (0 < s1.DelayCloseTimeout ∨ 0 < s1.IdleTimeout) ∧ s1.Subscribers.length = 0 then
      let r := s1.action .lastLeave
      (r.2.1, r.2.2, [])
    else
      (s1, [], [])
  | .trackAdd t =>
    let pre := if s.State = .waitPublish then s.action .publish else (true, s, [])
    let sA := pre.2.1
    if sA.Tracks.any fun x => x.name == t.name then
      (sA, pre.2.2, [.reject .badTrackName])
    else
      ({ sA with Tracks := sA.Tracks ++ [t], timer := .running fiveSeconds },
        pre.2.2, [.resolve])
  | .bareAction a =>
    let r := s.action a
    (r.2.1, r.2.2, [])

/-! ## H.265 NALU codec constants

Modelled from the spec: the `codec` package is an external collaborator
(spec sections 4.1 and 6); the constants are the standard HEVC NALU type
codes named by the spec (VPS=32, SPS=33, PPS=34, AP=48, FU=49, the
BLA/IDR/CRA key-slice variants 16..21, prefix SEI=39). -/

def NAL_UNIT_CODED_SLICE_BLA : Nat := 16
def NAL_UNIT_CODED_SLICE_BLANT : Nat := 17
def NAL_UNIT_CODED_SLICE_BLA_N_LP : Nat := 18
def NAL_UNIT_CODED_SLICE_IDR : Nat := 19
def NAL_UNIT_CODED_SLICE_IDR_N_LP : Nat := 20
def NAL_UNIT_CODED_SLICE_CRA : Nat := 21
def NAL_UNIT_VPS : Nat := 32
def NAL_UNIT_SPS : Nat := 33
def NAL_UNIT_PPS : Nat := 34
def NAL_UNIT_SEI : Nat := 39
def NAL_UNIT_RTP_AP : Nat := 48
def NAL_UNIT_RTP_FU : Nat := 49

/-- HEVC NALU type of a header byte: spec section 4.1,
`ParseH265NALUType(b)` returns `(b >> 1) & 0x3F`. -/
def ParseH265NALUType (b : Nat) : Nat :=
  (b >>> 1) &&& 63

/-! ## H.265 WriteSliceBytes (track/h265.go lines 34-78) -/

/-- The H265 track state consumed by `WriteSliceBytes`: the three
parameter-set fields, the three `ParamaterSets` slots, the current
AVFrame's key flag (`vt.Value.IFrame`) and the slices appended to the
current access unit (`AppendAuBytes`). -/
structure H265 where
  VPS : Option (List Nat) := none
  SPS : Option (List Nat) := none
  PPS : Option (List Nat) := none
  PS0 : Option (List Nat) := none
  PS1 : Option (List Nat) := none
  PS2 : Option (List Nat) := none
  IFrame : Bool := false
  AU : List (List Nat) := []
deriving DecidableEq, Repr

/-- Observable side effects of `WriteSliceBytes` beyond the track state:
publishing a sequence header via `WriteSequenceHead`, closing the stream
on a build error, or warning about an unsupported type. -/
inductive H265Eff
  | wroteSeqHead (h : List Nat)
  | closedStream
  | warned (t : Nat)
deriving DecidableEq, Repr

/-- track/h265.go `H265.WriteSliceBytes`, parameterized by the external
`codec.BuildH265SeqHeaderFromVpsSpsPps` (`none` models a build error).
The `SPSInfo` update on SPS uses the external `codec.ParseHevcSPS` and
only feeds a debug log, so it is not modelled. -/
def WriteSliceBytes (build : List Nat → List Nat → List Nat → Option (List Nat))
    (vt : H265) (slice : List Nat) : H265 × List H265Eff :=
  let t := ParseH265NALUType (slice.headD 0)
  if t = NAL_UNIT_VPS then
    ({ vt with VPS := some slice, PS0 := some slice }, [])
  else if t = NAL_UNIT_SPS then
    ({ vt with SPS := some slice, PS1 := some slice }, [])
  else if t = NAL_UNIT_PPS then
    let vt1 := { vt with PPS := some slice, PS2 := some slice }
    let effs : List H265Eff :=
      match vt1.VPS, vt1.SPS with
      | some v, some sp =>
        match build v sp slice with
        | some h => [.wroteSeqHead h]
        | none => [.closedStream]
      | _, _ => []
    (vt1, effs)
  else if t = NAL_UNIT_CODED_SLICE_BLA ∨ t = NAL_UNIT_CODED_SLICE_BLANT
      ∨ t = NAL_UNIT_CODED_SLICE_BLA_N_LP ∨ t = NAL_UNIT_CODED_SLICE_IDR
      ∨ t = NAL_UNIT_CODED_SLICE_IDR_N_LP ∨ t = NAL_UNIT_CODED_SLICE_CRA then
    ({ vt with IFrame := true, AU := vt.AU ++ [slice] }, [])
  else if t ≤ 9 then
    ({ vt with IFrame := false, AU := vt.AU ++ [slice] }, [])
  else if t = NAL_UNIT_SEI then
    ({ vt with AU := vt.AU ++ [slice] }, [])
  else
    (vt, [.warned t])

/-- Whether an access unit contains at least one IDR/CRA/BLA NALU (the
right-hand side of the spec's key-frame invariant). -/
def containsKeySlice (au : List (List Nat)) : Bool :=
  au.any fun sl =>
    let t := ParseH265NALUType (sl.headD 0)
    decide (t = NAL_UNIT_CODED_SLICE_BLA ∨ t = NAL_UNIT_CODED_SLICE_BLANT
      ∨ t = NAL_UNIT_CODED_SLICE_BLA_N_LP ∨ t = NAL_UNIT_CODED_SLICE_IDR
      ∨ t = NAL_UNIT_CODED_SLICE_IDR_N_LP ∨ t = NAL_UNIT_CODED_SLICE_CRA)

/-! ## H.265 RTP fragmentation units (track/h265.go lines 136-214) -/

/-- Greedy left-to-right split of a list into chunks of `n` elements
(the successive `r.ReadN(RTPMTU)` calls of `CompleteRTP`). -/
def chunks {α : Type} (n : Nat) : List α → List (List α)
  | [] => []
  | x :: xs =>
    if _h : n = 0 then []
    else (x :: xs).take n :: chunks n ((x :: xs).drop n)
termination_by l => l.length
decreasing_by
  simp only [List.length_drop, List.length_cons]
  omega

/-- Set the FU end bit (`buf[0][2] |= 1 << 6`) on a packet. -/
def orEndBit : List Nat → List Nat
  | a :: b :: c :: r => a :: b :: (c ||| 64) :: r
  | l => l

/-- Apply `orEndBit` to the last packet of a list (after the loop in
`CompleteRTP`, `buf` refers to the last packet built). -/
def markLastEnd : List (List Nat) → List (List Nat)
  | [] => []
  | [p] => [orEndBit p]
  | p :: q :: r => p :: markLastEnd (q :: r)

/-- The fragmentation-unit branch of track/h265.go `H265.CompleteRTP`
(taken when the access unit's byte length is at least the MTU): read the
two NALU header bytes, emit a first FU packet with the start bit and
`mtu - 3` payload bytes, then FU packets of `mtu` payload bytes, and set
the end bit on the last packet.  The `RTPMTU` constant lives in the
external `common` package, so the MTU is a parameter here. -/
def CompleteRTPFU (mtu : Nat) : List Nat → List (List Nat)
  | b0 :: b1 :: rest =>
    let t := ParseH265NALUType b0
    let h0 := (NAL_UNIT_RTP_FU <<< 1) ||| (b0 &&& 129)
    let first := h0 :: b1 :: ((1 <<< 7) ||| t) :: rest.take (mtu - 3)
    let mids := (chunks mtu (rest.drop (mtu - 3))).map fun c => h0 :: b1 :: t :: c
    markLastEnd (first :: mids)
  | _ => []

/-- The FU branch of track/h265.go `H265.WriteRTPFrame` applied to one
packet: state is the byte list of the NALU being reassembled (`none`
before any start fragment).  On a start bit, begin a new NALU with header
`(b0 & 0x81) | (natype << 1)` then `b1`; on every fragment append the
payload to the NALU in progress.  Packets whose type is not FU go to the
AP and single-NALU branches (`WriteSliceBytes`), which leave the FU
reassembly state alone; packets shorter than 3 bytes are dropped by the
`CanReadN(3)` guard. -/
def fuStep (st : Option (List Nat)) (p : List Nat) : Option (List Nat) :=
  match p with
  | p0 :: p1 :: fu :: payload =>
    if ParseH265NALUType p0 = NAL_UNIT_RTP_FU then
      let st1 :=
        if fu &&& 128 ≠ 0 then
          some [(p0 &&& 129) ||| ((fu &&& 63) <<< 1), p1]
        else st
      match st1 with
      | some acc => some (acc ++ payload)
      | none => none
    else st
  | _ => st

/-- Feed a sequence of RTP FU packets through the `WriteRTPFrame` FU
branch and return the reassembled NALU bytes. -/
def WriteRTPFrameFU (ps : List (List Nat)) : Option (List Nat) :=
  ps.foldl fuStep none

/-! ## H.265 WriteAVCC (track/h265.go lines 90-134) -/

/-- Enhanced-RTMP packet types consumed by `WriteAVCC`.  Modelled from
the spec: the `codec` package is external; `SequenceStart`, `CodedFrames`
and `CodedFramesX` are the standard enhanced-FLV values 0, 1 and 3. -/
def PacketTypeSequenceStart : Nat := 0
def PacketTypeCodedFrames : Nat := 1
def PacketTypeCodedFramesX : Nat := 3

/-- Total byte length of a linked byte list (`BLL.ByteLength`). -/
def byteLength (frame : List (List Nat)) : Nat :=
  (frame.map List.length).sum

/-- `BLL.GetByte`: the i-th byte of the concatenation. -/
def getByte (frame : List (List Nat)) (i : Nat) : Nat :=
  frame.flatten.getD i 0

/-- Modelled from the spec: the `util.BLL` linked byte list is external;
per spec section 4.4 the `CodedFrames`/`CodedFramesX` rewrites act on
"the second segment" of the list, so `frame.Next.Value` is the segment at
index 1. -/
def secondSegment (frame : List (List Nat)) : List Nat :=
  frame.getD 1 []

/-- Replace the second segment (see `secondSegment`). -/
def setSecondSegment (frame : List (List Nat)) (seg : List Nat) : List (List Nat) :=
  frame.set 1 seg

/-- Outcome of `H265.WriteAVCC`: the short-write error, a sequence head
handed to `writeSequenceHead` (with the parse failure closing the
stream), a frame forwarded to `Video.WriteAVCC`, or a silently ignored
packet (plain `return` with a nil error). -/
inductive AVCCResult
  | shortWrite
  | seqHead (h : List Nat)
  | seqParseError
  | forwardAVCC (frame : List (List Nat))
  | ignored
deriving DecidableEq, Repr

/-- track/h265.go `H265.WriteAVCC`, parameterized by the external
sequence-header parser used inside `writeSequenceHead`
(`codec.ParseVpsSpsPpsFromSeqHeaderWithoutMalloc`); `false` models a
parse error, which closes the stream. -/
def H265WriteAVCC (parseSeqOk : List Nat → Bool) (frame : List (List Nat)) : AVCCResult :=
  if byteLength frame < 6 then .shortWrite
  else
    let b0 := getByte frame 0
    if (b0 >>> 4) &&& 8 ≠ 0 then
      let packetType := b0 &&& 15
      if packetType = PacketTypeSequenceStart then
        let header := 0x1c :: 0x00 :: 0x00 :: 0x00 :: 0x00 :: frame.flatten.drop 5
        if parseSeqOk header then .seqHead header else .seqParseError
      else if packetType = PacketTypeCodedFrames then
        let seg := secondSegment frame
        .forwardAVCC (setSecondSegment frame ((b0 &&& 127 &&& 252) :: 1 :: seg.drop 5))
      else if packetType = PacketTypeCodedFramesX then
        let seg := secondSegment frame
        .forwardAVCC
          (setSecondSegment frame ((b0 &&& 127 &&& 252) :: 1 :: 0 :: 0 :: 0 :: seg.drop 5))
      else .ignored
    else
      if getByte frame 1 = 0 then
        if parseSeqOk frame.flatten then .seqHead frame.flatten else .seqParseError
      else .forwardAVCC frame

/-! ## Definitions used to state the claims -/

/-- The transition table exactly as claim C1 lists it, written from the
claim's words for comparison with the `StreamFSM` table translated from
the source. -/
def claimTable : StreamState → StreamAction → Option StreamState
  | .waitPublish, .publish => some .publishing
  | .waitPublish, .timeout => some .closed
  | .waitPublish, .lastLeave => some .closed
  | .waitPublish, .close => some .closed
  | .publishing, .publishLost => some .waitPublish
  | .publishing, .lastLeave => some .waitClose
  | .publishing, .close => some .closed
  | .waitClose, .publishLost => some .closed
  | .waitClose, .timeout => some .closed
  | .waitClose, .firstEnter => some .publishing
  | .waitClose, .close => some .closed
  | _, _ => none

/-- A successful `Stream.action` call appends one table-conforming event
and lands in its target state, or — for the immediate LastLeave
continuation out of Publishing — appends two chained table-conforming
events. -/
def followsTable (s : Stream) (a : StreamAction) (s1 : Stream) : Prop :=
  (s1.SEHistory = s.SEHistory ++ [⟨a, s.State⟩]
    ∧ StreamFSM s.State a = some s1.State)
  ∨ (s1.SEHistory = s.SEHistory ++ [⟨a, s.State⟩, ⟨.lastLeave, .publishing⟩]
    ∧ StreamFSM s.State a = some .publishing
    ∧ StreamFSM .publishing .lastLeave = some s1.State)

/-- The event type fanned out on entering Publishing, as a function of
the history length at the moment of the transition (stream.go lines
295-299): Republish exactly when that length exceeds one. -/
def publishEventFor (histLen : Nat) : SE :=
  if histLen > 1 then SE.republishE else SE.publishE

/-- The wait applied on entering WaitPublish, written from claim C5's
words: the publisher's WaitCloseTimeout when a publisher is set and the
value is nonzero, else the WaitTimeout of some current subscriber when
one exists, else 10 ms. -/
def specWaitPublishTimeout (s : Stream) : Nat :=
  match s.Publisher with
  | some p =>
    if p.WaitCloseTimeout ≠ 0 then p.WaitCloseTimeout
    else
      match s.Subscribers.head? with
      | some sub => sub.WaitTimeout
      | none => defaultWaitPublish
  | none =>
    match s.Subscribers.head? with
    | some sub => sub.WaitTimeout
    | none => defaultWaitPublish

/-- The key-frame flag obtained by folding a sequence of slices through
the classification of `WriteSliceBytes`: true exactly when the most
recently seen slice NALU (key variant 16..21 or ordinary slice 0..9) was
a key variant. -/
def lastSliceIsKey (initial : Bool) (slices : List (List Nat)) : Bool :=
  slices.foldl
    (fun acc sl =>
      let t := ParseH265NALUType (sl.headD 0)
      if 16 ≤ t ∧ t ≤ 21 then true
      else if t ≤ 9 then false
      else acc)
    initial

/-- Fold a sequence of slices into the track state via
`WriteSliceBytes`. -/
def writeAll (build : List Nat → List Nat → List Nat → Option (List Nat))
    (vt : H265) (slices : List (List Nat)) : H265 :=
  slices.foldl (fun v sl => (WriteSliceBytes build v sl).1) vt

/-- A closed stream as left behind by the Close transition. -/
def closedStream0 : Stream :=
  { State := .closed
    SEHistory := [⟨.close, .waitPublish⟩]
    Publisher := none
    Subscribers := []
    Tracks := []
    timer := .stopped
    PublishTimeout := 0
    DelayCloseTimeout := 0
    IdleTimeout := 0
    actionChanClosed := true }

/-- A sample subscriber. -/
def sub0 : Subscriber := ⟨7, 3⟩

/-- A sample publisher with WaitCloseTimeout zero. -/
def pub0 : Publisher := ⟨1, 0⟩

/-- A closed stream that still holds `pub0` as its publisher. -/
def closedStreamPub : Stream :=
  { closedStream0 with Publisher := some pub0 }

/-- A fresh stream with a positive IdleTimeout and no subscribers. -/
def idleStream : Stream :=
  { State := .waitPublish
    SEHistory := []
    Publisher := none
    Subscribers := []
    Tracks := []
    timer := .running 1
    PublishTimeout := 7
    DelayCloseTimeout := 3
    IdleTimeout := 1
    actionChanClosed := false }

/-- A publishing stream whose publisher is gone (nil) while a track is
still online: reachable because a TrackAdd in WaitPublish triggers the
Publish action without adopting a publisher. -/
def pubLostStream : Stream :=
  { State := .publishing
    SEHistory := [⟨.publish, .waitPublish⟩]
    Publisher := none
    Subscribers := []
    Tracks := [⟨"v", .online⟩]
    timer := .running 1
    PublishTimeout := 1
    DelayCloseTimeout := 0
    IdleTimeout := 0
    actionChanClosed := false }

/-- A publishing stream with a publisher, a subscriber and a track. -/
def wpStream : Stream :=
  { State := .publishing
    SEHistory := [⟨.publish, .waitPublish⟩]
    Publisher := some ⟨2, 9⟩
    Subscribers := [sub0]
    Tracks := [⟨"v", .online⟩]
    timer := .running 1
    PublishTimeout := 4
    DelayCloseTimeout := 0
    IdleTimeout := 0
    actionChanClosed := false }

/-- A sequence-header builder that always fails (used to instantiate the
external `codec.BuildH265SeqHeaderFromVpsSpsPps` parameter). -/
def noneBuild : List Nat → List Nat → List Nat → Option (List Nat) :=
  fun _ _ _ => none

/-! ## Arithmetic facts about the H.265 header bytes -/

set_option maxRecDepth 8192

/-- Bit identities behind the FU round trip, checked for every byte:
the FU payload header parses back to type 49, it preserves the original
byte's bits 7 and 0, reassembling those bits with the parsed NALU type
restores the byte, and the parsed type is below 64. -/
theorem h265_fu_bits : ∀ b0 : Nat, b0 < 256 →
    (((98 ||| (b0 &&& 129)) >>> 1) &&& 63 = 49)
    ∧ ((98 ||| (b0 &&& 129)) &&& 129 = b0 &&& 129)
    ∧ ((b0 &&& 129) ||| (((b0 >>> 1) &&& 63) <<< 1) = b0)
    ∧ ((b0 >>> 1) &&& 63 < 64) := by decide

/-- Bit identities for the FU header byte holding the NALU type: the
start-bit variant is detected as a start, its low six bits are the type,
and neither the bare type nor the end-bit variant carries the start
bit. -/
theorem fu_hdr_bits : ∀ t : Nat, t < 64 →
    ((128 ||| t) &&& 128 ≠ 0)
    ∧ ((128 ||| t) &&& 63 = t)
    ∧ (t &&& 128 = 0)
    ∧ ((t ||| 64) &&& 128 = 0) := by decide

/-! ## Helper lemmas for the FU round trip -/

/-- Concatenating the chunks of a list gives the list back. -/
theorem chunks_flatten {α : Type} (n : Nat) (hn : n ≠ 0) :
    ∀ l : List α, (chunks n l).flatten = l := by
  have H : ∀ (len : Nat) (l : List α), l.length = len → (chunks n l).flatten = l := by
    intro len
    induction len using Nat.strong_induction_on with
    | _ len ih =>
      intro l hL
      cases l with
      | nil => simp [chunks]
      | cons x xs =>
        rw [chunks, dif_neg hn]
        simp only [List.flatten_cons]
        rw [ih ((x :: xs).drop n).length (by subst hL; simp; omega) _ rfl]
        exact List.take_append_drop n (x :: xs)
  intro l
  exact H l.length l rfl

/-- `markLastEnd` keeps the head of a list with at least two packets. -/
theorem markLastEnd_cons (p : List Nat) (l : List (List Nat)) (h : l ≠ []) :
    markLastEnd (p :: l) = p :: markLastEnd l := by
  cases l with
  | nil => exact absurd rfl h
  | cons q r => rfl

/-- Folding the FU reassembly step over the non-start fragments (end bit
set on the last one) appends exactly their payloads. -/
theorem foldl_fuStep_mids (h0 b1 t : Nat)
    (hType : ParseH265NALUType h0 = NAL_UNIT_RTP_FU)
    (hT : t &&& 128 = 0) (hTE : (t ||| 64) &&& 128 = 0) :
    ∀ (cs : List (List Nat)) (acc : List Nat),
      List.foldl fuStep (some acc)
          (markLastEnd (cs.map fun c => h0 :: b1 :: t :: c))
        = some (acc ++ cs.flatten) := by
  intro cs
  induction cs with
  | nil => intro acc; simp [markLastEnd]
  | cons c cs ih =>
    intro acc
    cases cs with
    | nil =>
      simp [markLastEnd, orEndBit, fuStep, hType, hTE]
    | cons c2 cs2 =>
      rw [List.map_cons, markLastEnd_cons _ _ (by simp)]
      simp only [List.foldl_cons]
      have hstep : fuStep (some acc) (h0 :: b1 :: t :: c) = some (acc ++ c) := by
        simp [fuStep, hType, hT]
      rw [hstep, ih (acc ++ c)]
      simp

/-- Claim C7: splitting a NALU at least as large as the RTP MTU into
fragmentation units with the FU branch of `CompleteRTP` (header byte
`(49 << 1) | (b0 & 0x81)`, start bit on the first fragment, end bit on
the last, original NALU type in the low six bits of the FU header) and
reassembling those packets with the FU branch of `WriteRTPFrame` yields
the original NALU bytes, whose first byte equals
`(b0 & 0x81) | (naluType << 1)`. -/
theorem C7_fu_round_trip :
    ∀ (mtu b0 b1 : Nat) (rest : List Nat),
      4 ≤ mtu → b0 < 256 → mtu ≤ (b0 :: b1 :: rest).length →
      WriteRTPFrameFU (CompleteRTPFU mtu (b0 :: b1 :: rest)) = some (b0 :: b1 :: rest)
      ∧ (b0 &&& 129) ||| (ParseH265NALUType b0 <<< 1) = b0 := by
  intro mtu b0 b1 rest h4 hb hlen
  have hbits := h265_fu_bits b0 hb
  have hPdef : ParseH265NALUType b0 = (b0 >>> 1) &&& 63 := rfl
  have hKey : (b0 &&& 129) ||| (ParseH265NALUType b0 <<< 1) = b0 := by
    rw [hPdef]; exact hbits.2.2.1
  have ht64 : ParseH265NALUType b0 < 64 := by rw [hPdef]; exact hbits.2.2.2
  have hfu := fu_hdr_bits (ParseH265NALUType b0) ht64
  refine ⟨?_, hKey⟩
  simp only [List.length_cons] at hlen
  have e1 : (1 <<< 7) ||| ParseH265NALUType b0 = 128 ||| ParseH265NALUType b0 := by
    norm_num [Nat.shiftLeft_eq]
  have e2 : (NAL_UNIT_RTP_FU <<< 1) ||| (b0 &&& 129) = 98 ||| (b0 &&& 129) := by
    norm_num [NAL_UNIT_RTP_FU, Nat.shiftLeft_eq]
  have hp : ParseH265NALUType (98 ||| (b0 &&& 129)) = NAL_UNIT_RTP_FU := by
    simp only [ParseH265NALUType, NAL_UNIT_RTP_FU]
    exact hbits.1
  have hdrop : rest.drop (mtu - 3) ≠ [] := by
    intro hnil
    rw [List.drop_eq_nil_iff] at hnil
    omega
  obtain ⟨c, cs, hcs⟩ : ∃ c cs, chunks mtu (rest.drop (mtu - 3)) = c :: cs := by
    cases hd : rest.drop (mtu - 3) with
    | nil => exact absurd hd hdrop
    | cons y ys =>
      rw [chunks, dif_neg (by omega : ¬mtu = 0)]
      exact ⟨_, _, rfl⟩
  show List.foldl fuStep none (CompleteRTPFU mtu (b0 :: b1 :: rest)) = _
  simp only [CompleteRTPFU, e1, e2]
  rw [markLastEnd_cons _ _ (by rw [hcs]; simp)]
  simp only [List.foldl_cons]
  have hstep1 :
      fuStep none
          ((98 ||| (b0 &&& 129)) :: b1
            :: (128 ||| ParseH265NALUType b0) :: rest.take (mtu - 3))
        = some (b0 :: b1 :: rest.take (mtu - 3)) := by
    simp only [fuStep, hp, if_pos]
    rw [if_pos hfu.1]
    have h129 : (98 ||| (b0 &&& 129)) &&& 129 = b0 &&& 129 := hbits.2.1
    rw [h129, hfu.2.1, hKey]
    simp
  rw [hstep1,
    foldl_fuStep_mids (98 ||| (b0 &&& 129)) b1 (ParseH265NALUType b0) hp
      hfu.2.2.1 hfu.2.2.2,
    chunks_flatten mtu (by omega)]
  simp

/-- Witness for C7 at a concrete NALU and MTU. -/
theorem C7_fu_round_trip_witness :
    WriteRTPFrameFU (CompleteRTPFU 4 [38, 0, 1, 2]) = some [38, 0, 1, 2]
    ∧ (38 &&& 129) ||| (ParseH265NALUType 38 <<< 1) = 38 :=
  C7_fu_round_trip 4 38 0 [1, 2] (by decide) (by decide) (by decide)

/-- Claim C8: `WriteAVCC` returns the short-write error exactly when the
frame's total byte length is below six, regardless of the sequence-header
parser's behavior; in that case nothing is forwarded. -/
theorem C8_short_write :
    ∀ (parseSeqOk : List Nat → Bool) (frame : List (List Nat)),
      H265WriteAVCC parseSeqOk frame = AVCCResult.shortWrite ↔ byteLength frame < 6 := by
  intro p f
  constructor
  · intro h
    by_contra hlen
    unfold H265WriteAVCC at h
    rw [if_neg hlen] at h
    simp only [] at h
    repeat' split at h
    all_goals simp_all
  · intro h
    unfold H265WriteAVCC
    rw [if_pos h]

/-- Claim C9: an extended-header frame with packet type CodedFrames has
the first two bytes of its second segment rewritten to
`(b0 & 0x7F & 0xFC)` and `0x01`, the bytes from offset 5 of that segment
shifted down to offset 2, and is forwarded as a regular AVCC frame; the
total length shrinks by three. -/
theorem C9_coded_frames :
    ∀ (parseSeqOk : List Nat → Bool) (frame : List (List Nat)),
      6 ≤ byteLength frame →
      (getByte frame 0 >>> 4) &&& 8 ≠ 0 →
      getByte frame 0 &&& 15 = PacketTypeCodedFrames →
      H265WriteAVCC parseSeqOk frame
        = AVCCResult.forwardAVCC
            (setSecondSegment frame
              ((getByte frame 0 &&& 127 &&& 252) :: 1 :: (secondSegment frame).drop 5))
      ∧ (2 ≤ frame.length → 5 ≤ (secondSegment frame).length →
          byteLength
              (setSecondSegment frame
                ((getByte frame 0 &&& 127 &&& 252) :: 1 :: (secondSegment frame).drop 5))
            = byteLength frame - 3) := by
  intro p f hlen hext hpt
  constructor
  · unfold H265WriteAVCC
    rw [if_neg (by omega), if_pos hext, if_neg (by rw [hpt]; decide), if_pos hpt]
  · intro h2 h5
    match f, h2 with
    | f0 :: f1 :: fr, _ =>
      have hsec : secondSegment (f0 :: f1 :: fr) = f1 := rfl
      rw [hsec] at h5
      rw [hsec]
      have hset : ∀ seg, setSecondSegment (f0 :: f1 :: fr) seg = f0 :: seg :: fr :=
        fun _ => rfl
      rw [hset]
      simp only [byteLength, List.map_cons, List.sum_cons, List.length_cons,
        List.length_drop]
      omega

/-- Witness for C9 at a concrete two-segment frame. -/
theorem C9_coded_frames_witness :
    H265WriteAVCC (fun _ => true) [[145], [0, 0, 0, 0, 0, 7]]
      = AVCCResult.forwardAVCC [[145], [16, 1, 7]]
    ∧ byteLength
        (setSecondSegment [[145], [0, 0, 0, 0, 0, 7]]
          ((getByte [[145], [0, 0, 0, 0, 0, 7]] 0 &&& 127 &&& 252) :: 1
            :: (secondSegment [[145], [0, 0, 0, 0, 0, 7]]).drop 5))
      = byteLength [[145], [0, 0, 0, 0, 0, 7]] - 3 := by
  have h := C9_coded_frames (fun _ => true) [[145], [0, 0, 0, 0, 0, 7]]
    (by decide) (by decide) (by decide)
  exact ⟨h.1, h.2 (by decide) (by decide)⟩

/-- Claim C10: an extended-header frame whose packet type is none of
SequenceStart, CodedFrames, CodedFramesX is silently ignored: `WriteAVCC`
returns success without forwarding anything, writing a sequence header or
touching the track state. -/
theorem C10_unknown_packet :
    ∀ (parseSeqOk : List Nat → Bool) (frame : List (List Nat)),
      6 ≤ byteLength frame →
      (getByte frame 0 >>> 4) &&& 8 ≠ 0 →
      getByte frame 0 &&& 15 ≠ PacketTypeSequenceStart →
      getByte frame 0 &&& 15 ≠ PacketTypeCodedFrames →
      getByte frame 0 &&& 15 ≠ PacketTypeCodedFramesX →
      H265WriteAVCC parseSeqOk frame = AVCCResult.ignored := by
  intro p f hlen hext h0 h1 h3
  unfold H265WriteAVCC
  rw [if_neg (by omega), if_pos hext, if_neg h0, if_neg h1, if_neg h3]

/-- Witness for C10 at a concrete frame with packet type 2 (SequenceEnd). -/
theorem C10_unknown_packet_witness :
    H265WriteAVCC (fun _ => true) [[146, 0, 0, 0, 0, 0]] = AVCCResult.ignored :=
  C10_unknown_packet (fun _ => true) [[146, 0, 0, 0, 0, 0]]
    (by decide) (by decide) (by decide) (by decide) (by decide)

/-- Claim C1: the initial state is WaitPublish, `StreamFSM` is exactly
the table of spec section 4.5, a disallowed action makes `Stream.action`
return false leaving the stream (state, history, tracks, timer)
unchanged and emitting nothing, and every accepted action changes state
only along table edges appended to the history. -/
theorem C1_transition_table :
    (∀ wt pt dct idle, (createStream wt pt dct idle).State = StreamState.waitPublish)
    ∧ (∀ f a, StreamFSM f a = claimTable f a)
    ∧ (∀ (s : Stream) (a : StreamAction),
        StreamFSM s.State a = none → s.action a = (false, s, []))
    ∧ (∀ (s : Stream) (a : StreamAction),
        (s.action a).1 = true → followsTable s a (s.action a).2.1) := by
  refine ⟨fun _ _ _ _ => rfl, fun f a => by cases f <;> cases a <;> rfl, ?_, ?_⟩
  · intro s a h
    simp [Stream.action, actionFuel, h]
  · intro s a h
    rcases hS : StreamFSM s.State a with _ | next
    · simp [Stream.action, actionFuel, hS] at h
    · cases next with
      | waitPublish =>
        left
        simp only [Stream.action, actionFuel, hS]
        rcases hP : s.Publisher with _ | p <;>
          rcases hH : s.Subscribers.head? with _ | u <;>
            simp [hP, hH, hS]
      | publishing =>
        have hS2 : StreamFSM StreamState.publishing StreamAction.lastLeave
            = some StreamState.waitClose := rfl
        simp only [Stream.action, actionFuel, hS, hS2]
        by_cases hc : 0 < s.IdleTimeout ∧ s.Subscribers.length = 0
        · right
          simp [followsTable, hc, hS, hS2]
        · left
          rw [if_neg (by simpa using hc)]
          simp [hS]
      | waitClose =>
        left
        simp only [Stream.action, actionFuel, hS]
        simp [hS]
      | closed =>
        left
        simp only [Stream.action, actionFuel, hS]
        simp [hS]

/-- Witness for C1: a disallowed action (FirstEnter from WaitPublish) on
a concrete fresh stream is refused without any change or emission. -/
theorem C1_transition_table_witness :
    (createStream 7 1 2 0).action .firstEnter = (false, createStream 7 1 2 0, []) :=
  C1_transition_table.2.2.1 (createStream 7 1 2 0) .firstEnter rfl

/-- Claim C2 (counterexample): a SubscribeRequest dispatched on a closed
stream still changes the subscriber set, because the closed-check
rejection in the run loop does not stop the handler. -/
theorem C2_counterexample :
    (closedStream0.dispatch (Item.subscribeReq sub0)).1.Subscribers
      ≠ closedStream0.Subscribers := by decide

/-- Claim C2 (amended): on a closed stream, `Receive` returns false and
every dispatched item leaves the state Closed and emits no state event
(the Closed row of the table is empty), though handler side effects on
the subscriber, publisher and track fields still occur. -/
theorem C2_closed_stream :
    ∀ (s : Stream) (it : Item), s.State = .closed →
      s.Receive = false
      ∧ (s.dispatch it).1.State = .closed
      ∧ (s.dispatch it).2.1 = [] := by
  intro s it h
  have hRecv : s.Receive = false := by
    simp [Stream.Receive, Stream.IsClosed, h]
  have hAct : ∀ (x : Stream) (a : StreamAction), x.State = .closed →
      x.action a = (false, x, []) := by
    intro x a hx
    have : StreamFSM x.State a = none := by rw [hx]; cases a <;> rfl
    simp [Stream.action, actionFuel, this]
  refine ⟨hRecv, ?_⟩
  cases it with
  | publishReq p =>
    simp only [Stream.dispatch]
    by_cases hr : s.Publisher == some p
    · rw [if_pos hr, hAct s .publish h]
      exact ⟨h, rfl⟩
    · rw [if_neg hr, hAct { s with Publisher := some p } .publish h]
      exact ⟨h, rfl⟩
  | subscribeReq sub =>
    simp only [Stream.dispatch]
    rw [if_neg (by simp [h])]
    exact ⟨h, rfl⟩
  | unsubscribe sub =>
    simp only [Stream.dispatch]
    by_cases hcond : (0 < s.DelayCloseTimeout ∨ 0 < s.IdleTimeout)
        ∧ (s.Subscribers.filter fun x => !(x == sub)).length = 0
    · rw [if_pos hcond,
        hAct { s with Subscribers := s.Subscribers.filter fun x => !(x == sub) }
          .lastLeave h]
      exact ⟨h, rfl⟩
    · rw [if_neg hcond]
      exact ⟨h, rfl⟩
  | trackAdd t =>
    simp only [Stream.dispatch]
    rw [if_neg (show ¬s.State = StreamState.waitPublish by simp [h])]
    by_cases hdup : (s.Tracks.any fun x => x.name == t.name) = true
    · rw [if_pos hdup]
      exact ⟨h, rfl⟩
    · rw [if_neg hdup]
      exact ⟨h, rfl⟩
  | bareAction a =>
    simp only [Stream.dispatch]
    rw [hAct s a h]
    exact ⟨h, rfl⟩

/-- Witness for C2 at a concrete closed stream and a bare action. -/
theorem C2_closed_stream_witness :
    closedStream0.Receive = false
    ∧ (closedStream0.dispatch (Item.bareAction .publish)).1.State = .closed
    ∧ (closedStream0.dispatch (Item.bareAction .publish)).2.1 = [] :=
  C2_closed_stream closedStream0 (Item.bareAction .publish) rfl

/-- Claim C3 (code-bug evaluation): a PublishRequest carrying the
stream's current publisher, dispatched while the stream is Closed, has
its promise settled twice — the closed-check rejects it with
StreamClosed and the republish path then resolves it, because stream.go
lacks a return after the closed-check rejection. -/
theorem C3_double_settle :
    (closedStreamPub.dispatch (Item.publishReq pub0)).2.2
      = [PromiseOp.reject RejErr.streamClosed, PromiseOp.resolve] := by decide

/-- Claim C4 (counterexample): with IdleTimeout positive and no
subscribers, a first Publish transitions into Publishing (two history
entries appear) yet the bus never receives a Publish or Republish
event — the handler returns early into the LastLeave continuation. -/
theorem C4_counterexample :
    (idleStream.action .publish).2.1.SEHistory
        = [⟨.publish, .waitPublish⟩, ⟨.lastLeave, .publishing⟩]
    ∧ Emission.bus SE.publishE ∉ (idleStream.action .publish).2.2
    ∧ Emission.bus SE.republishE ∉ (idleStream.action .publish).2.2 := by decide

/-- Claim C4 (amended): on every transition into Publishing the event
broadcast to subscribers is Republish exactly when the history length
exceeds one at the transition (Publish otherwise); unless IdleTimeout is
positive with no subscribers, the same event also goes to the bus and
the publisher, and in that exceptional case neither Publish nor
Republish reaches the bus or the publisher. -/
theorem C4_publish_event :
    ∀ (s : Stream) (a : StreamAction), StreamFSM s.State a = some .publishing →
      ((s.action a).2.2.head?
          = some (Emission.broadcast (publishEventFor (s.SEHistory.length + 1))))
      ∧ (¬(0 < s.IdleTimeout ∧ s.Subscribers.length = 0) →
          (s.action a).2.2
            = Emission.broadcast (publishEventFor (s.SEHistory.length + 1))
              :: endEms s (publishEventFor (s.SEHistory.length + 1)))
      ∧ ((0 < s.IdleTimeout ∧ s.Subscribers.length = 0) →
          Emission.bus SE.publishE ∉ (s.action a).2.2
          ∧ Emission.bus SE.republishE ∉ (s.action a).2.2
          ∧ Emission.toPublisher SE.publishE ∉ (s.action a).2.2
          ∧ Emission.toPublisher SE.republishE ∉ (s.action a).2.2) := by
  intro s a hS
  have hS2 : StreamFSM StreamState.publishing StreamAction.lastLeave
      = some StreamState.waitClose := rfl
  simp only [Stream.action, actionFuel, hS, hS2]
  by_cases hc : 0 < s.IdleTimeout ∧ s.Subscribers.length = 0
  · rw [if_pos (by simpa using hc)]
    rcases hP : s.Publisher with _ | p <;>
      simp [publishEventFor, endEms, hP, hc]
  · rw [if_neg (by simpa using hc)]
    rcases hP : s.Publisher with _ | p <;>
      simp [publishEventFor, endEms, hP, hc] <;>
        (intro h1 h2; exact absurd ⟨h1, by simp [h2]⟩ hc)

/-- Witness for C4: the first Publish on a fresh stream broadcasts the
Publish (not Republish) event. -/
theorem C4_publish_event_witness :
    ((createStream 5 1 2 0).action .publish).2.2.head?
      = some (Emission.broadcast
          (publishEventFor ((createStream 5 1 2 0).SEHistory.length + 1))) :=
  (C4_publish_event (createStream 5 1 2 0) .publish rfl).1

/-- Claim C5 (counterexample): a PublishLost transition into WaitPublish
on a stream whose Publisher is nil (reachable because a TrackAdd in
WaitPublish triggers Publish without adopting a publisher) leaves its
track online — tracks are marked offline only under a publisher. -/
theorem C5_counterexample :
    (pubLostStream.action .publishLost).1 = true
    ∧ (pubLostStream.action .publishLost).2.1.State = StreamState.waitPublish
    ∧ ¬∀ t ∈ (pubLostStream.action .publishLost).2.1.Tracks,
        t.tstate = TrackState.offline := by decide

/-- Claim C5 (amended): on every transition into WaitPublish the timer is
reset to the publisher's WaitCloseTimeout when set and nonzero, else to
the WaitTimeout of some current subscriber, else to 10 ms; every track is
marked offline when (and only guaranteed when) a publisher is set; and
subscribers are notified of the publisher loss. -/
theorem C5_waitpublish :
    ∀ (s : Stream) (a : StreamAction), StreamFSM s.State a = some .waitPublish →
      ((s.action a).2.1.timer = TimerState.running (specWaitPublishTimeout s))
      ∧ (s.Publisher.isSome = true →
          ∀ t ∈ (s.action a).2.1.Tracks, t.tstate = TrackState.offline)
      ∧ (s.Publisher = none → (s.action a).2.1.Tracks = s.Tracks)
      ∧ (s.action a).2.2.head? = some Emission.onPublisherLost := by
  intro s a hS
  simp only [Stream.action, actionFuel, hS]
  rcases hP : s.Publisher with _ | p <;>
    rcases hH : s.Subscribers.head? with _ | u <;>
      simp [specWaitPublishTimeout, hP, hH, endEms]

/-- Witness for C5 at a concrete publishing stream with a publisher, a
subscriber and a track. -/
theorem C5_waitpublish_witness :
    ((wpStream.action .publishLost).2.1.timer
        = TimerState.running (specWaitPublishTimeout wpStream))
    ∧ (wpStream.action .publishLost).2.2.head? = some Emission.onPublisherLost :=
  ⟨(C5_waitpublish wpStream .publishLost rfl).1,
    (C5_waitpublish wpStream .publishLost rfl).2.2.2⟩

/-- Single-step key-flag behavior of `WriteSliceBytes`: a key-slice
variant sets IFrame, an ordinary slice 0..9 clears it, everything else
leaves it alone. -/
theorem writeSliceBytes_IFrame
    (build : List Nat → List Nat → List Nat → Option (List Nat))
    (vt : H265) (sl : List Nat) :
    (WriteSliceBytes build vt sl).1.IFrame
      = (if 16 ≤ ParseH265NALUType (sl.headD 0) ∧ ParseH265NALUType (sl.headD 0) ≤ 21
          then true
          else if ParseH265NALUType (sl.headD 0) ≤ 9 then false
          else vt.IFrame) := by
  simp only [WriteSliceBytes, NAL_UNIT_VPS, NAL_UNIT_SPS, NAL_UNIT_PPS,
    NAL_UNIT_CODED_SLICE_BLA, NAL_UNIT_CODED_SLICE_BLANT,
    NAL_UNIT_CODED_SLICE_BLA_N_LP, NAL_UNIT_CODED_SLICE_IDR,
    NAL_UNIT_CODED_SLICE_IDR_N_LP, NAL_UNIT_CODED_SLICE_CRA, NAL_UNIT_SEI]
  split_ifs <;> first | rfl | omega

/-- After any sequence of `WriteSliceBytes` calls, IFrame equals the
key-slice status of the most recently written classified slice. -/
theorem writeAll_IFrame (build : List Nat → List Nat → List Nat → Option (List Nat)) :
    ∀ (slices : List (List Nat)) (vt : H265),
      (writeAll build vt slices).IFrame = lastSliceIsKey vt.IFrame slices := by
  intro slices
  induction slices with
  | nil => intro vt; rfl
  | cons sl rest ih =>
    intro vt
    simp only [writeAll, List.foldl_cons, lastSliceIsKey] at *
    rw [ih, writeSliceBytes_IFrame]

/-- Claim C6 (counterexample): writing an IDR slice and then an ordinary
slice of type 1 into the same access unit leaves IFrame false although
the AU contains an IDR NALU — type 0..9 slices clear the flag, so the
"IFrame iff the AU contains a key NALU" reading fails. -/
theorem C6_counterexample :
    ((WriteSliceBytes noneBuild (WriteSliceBytes noneBuild {} [38, 0]).1 [2, 0]).1.IFrame
        = false)
    ∧ containsKeySlice
        (WriteSliceBytes noneBuild (WriteSliceBytes noneBuild {} [38, 0]).1 [2, 0]).1.AU
      = true := by decide

/-- Claim C6 (amended): a BLA/IDR/CRA key slice sets IFrame and appends
to the AU; types 0..9 append and clear IFrame; VPS/SPS/PPS go to
parameter-set slots 0/1/2 and a PPS write with all three present builds
the sequence header (closing the stream on a build error); SEI appends
leaving IFrame alone; unknown types are dropped with a warning; and over
any write sequence, IFrame equals the key status of the most recently
written classified slice (rather than "the AU contains a key NALU"). -/
theorem C6_write_slice_bytes :
    ∀ (build : List Nat → List Nat → List Nat → Option (List Nat))
      (vt : H265) (slice : List Nat),
      ((16 ≤ ParseH265NALUType (slice.headD 0)
          ∧ ParseH265NALUType (slice.headD 0) ≤ 21) →
        WriteSliceBytes build vt slice
          = ({ vt with IFrame := true, AU := vt.AU ++ [slice] }, []))
      ∧ (ParseH265NALUType (slice.headD 0) ≤ 9 →
        WriteSliceBytes build vt slice
          = ({ vt with IFrame := false, AU := vt.AU ++ [slice] }, []))
      ∧ (ParseH265NALUType (slice.headD 0) = NAL_UNIT_VPS →
        WriteSliceBytes build vt slice
          = ({ vt with VPS := some slice, PS0 := some slice }, []))
      ∧ (ParseH265NALUType (slice.headD 0) = NAL_UNIT_SPS →
        WriteSliceBytes build vt slice
          = ({ vt with SPS := some slice, PS1 := some slice }, []))
      ∧ (ParseH265NALUType (slice.headD 0) = NAL_UNIT_PPS →
        WriteSliceBytes build vt slice
          = ({ vt with PPS := some slice, PS2 := some slice },
              match vt.VPS, vt.SPS with
              | some v, some sp =>
                (match build v sp slice with
                  | some h => [H265Eff.wroteSeqHead h]
                  | none => [H265Eff.closedStream])
              | _, _ => []))
      ∧ (ParseH265NALUType (slice.headD 0) = NAL_UNIT_SEI →
        WriteSliceBytes build vt slice = ({ vt with AU := vt.AU ++ [slice] }, []))
      ∧ (¬ParseH265NALUType (slice.headD 0) ≤ 9 →
          ¬(16 ≤ ParseH265NALUType (slice.headD 0)
              ∧ ParseH265NALUType (slice.headD 0) ≤ 21) →
          ParseH265NALUType (slice.headD 0) ≠ NAL_UNIT_VPS →
          ParseH265NALUType (slice.headD 0) ≠ NAL_UNIT_SPS →
          ParseH265NALUType (slice.headD 0) ≠ NAL_UNIT_PPS →
          ParseH265NALUType (slice.headD 0) ≠ NAL_UNIT_SEI →
          WriteSliceBytes build vt slice
            = (vt, [H265Eff.warned (ParseH265NALUType (slice.headD 0))]))
      ∧ (∀ slices, (writeAll build vt slices).IFrame = lastSliceIsKey vt.IFrame slices) := by
  intro build vt slice
  simp only [NAL_UNIT_VPS, NAL_UNIT_SPS, NAL_UNIT_PPS, NAL_UNIT_SEI]
  refine ⟨?_, ?_, ?_, ?_, ?_, ?_, ?_, fun slices => writeAll_IFrame build slices vt⟩ <;>
    (first
      | (intro h
         simp only [WriteSliceBytes, NAL_UNIT_VPS, NAL_UNIT_SPS, NAL_UNIT_PPS,
           NAL_UNIT_CODED_SLICE_BLA, NAL_UNIT_CODED_SLICE_BLANT,
           NAL_UNIT_CODED_SLICE_BLA_N_LP, NAL_UNIT_CODED_SLICE_IDR,
           NAL_UNIT_CODED_SLICE_IDR_N_LP, NAL_UNIT_CODED_SLICE_CRA, NAL_UNIT_SEI]
         split_ifs <;> first | rfl | omega)
      | (intro h1 h2 h3 h4 h5 h6
         simp only [WriteSliceBytes, NAL_UNIT_VPS, NAL_UNIT_SPS, NAL_UNIT_PPS,
           NAL_UNIT_CODED_SLICE_BLA, NAL_UNIT_CODED_SLICE_BLANT,
           NAL_UNIT_CODED_SLICE_BLA_N_LP, NAL_UNIT_CODED_SLICE_IDR,
           NAL_UNIT_CODED_SLICE_IDR_N_LP, NAL_UNIT_CODED_SLICE_CRA, NAL_UNIT_SEI]
         split_ifs <;> first | rfl | omega))

/-- Witness for C6: an IDR slice on a fresh track sets the key flag and
lands in the access unit. -/
theorem C6_write_slice_bytes_witness :
    WriteSliceBytes noneBuild {} [38, 0]
      = ({ IFrame := true, AU := [[38, 0]] }, []) := by
  have h := (C6_write_slice_bytes noneBuild {} [38, 0]).1 (by decide)
  simpa using h

end Engine
